import Mathlib

/-!
Shallow embedding of the price-comparison search gateway
(`apps/api` services: search, cache, mock data provider; `packages/utils`
currency helpers; `packages/types` data model), together with proofs about
the embedded code.

Monetary amounts (JavaScript `number`) are modelled as `ℚ`; timestamps as
`Nat`; optional TS fields as `Option`.  JavaScript truthiness on numbers
(`x || d` picks `d` for `0`/`undefined`) is modelled explicitly by the
`orElseQ`/`orElseNat` helpers.  Wall-clock fields (`took_ms`) are outside
the embedding and omitted from response records.
-/

namespace PriceComp

/-- Shop type enum from packages/config `enums.ts` (`ShopType`). -/
inductive ShopType where
  | localShop
  | globalShop
deriving DecidableEq, Repr

/-- Currency enum from `enums.ts` (`Currency`): ILS, USD, EUR, GBP. -/
inductive Currency where
  | ILS
  | USD
  | EUR
  | GBP
deriving DecidableEq, Repr

/-- Country enum from `enums.ts` (`Country`): IL, US, UK, DE, FR. -/
inductive Country where
  | IL
  | US
  | UK
  | DE
  | FR
deriving DecidableEq, Repr

/-- Availability status enum from `enums.ts` (`AvailabilityStatus`). -/
inductive AvailabilityStatus where
  | in_stock
  | out_of_stock
  | low_stock
  | pre_order
  | unknown
deriving DecidableEq, Repr

/-- Sort option enum from `enums.ts` (`SortBy`). -/
inductive SortBy where
  | relevance
  | price_asc
  | price_desc
  | rating
  | newest
deriving DecidableEq, Repr

/-- Price trend enum from `enums.ts` (`PriceTrend`). -/
inductive PriceTrend where
  | rising
  | falling
  | stable
deriving DecidableEq, Repr

/-- Runtime string value of a `Country` enum member (TS enums are string-valued,
and the mock provider compares them against the `string` fields of `ShopInfo`). -/
def countryCode : Country → String
  | Country.IL => "IL"
  | Country.US => "US"
  | Country.UK => "UK"
  | Country.DE => "DE"
  | Country.FR => "FR"

/-- Runtime string value of a `SortBy` enum member. -/
def sortByCode : SortBy → String
  | SortBy.relevance => "relevance"
  | SortBy.price_asc => "price_asc"
  | SortBy.price_desc => "price_desc"
  | SortBy.rating => "rating"
  | SortBy.newest => "newest"

/-- `ShopInfo` from packages/types `product.ts`. -/
structure ShopInfo where
  name : String
  type : ShopType
  country : String
  ships_to : List String
  is_marketplace : Bool
  global_reach : Bool
deriving DecidableEq, Repr

/-- `BasePrice` from `product.ts`. -/
structure BasePrice where
  amount : ℚ
  currency : Currency
  includes_tax : Bool
deriving DecidableEq, Repr

/-- The `estimated_days` sub-object of `ShippingCost` in `product.ts`. -/
structure EstimatedDays where
  standard : ℚ
  express : Option ℚ
deriving DecidableEq, Repr

/-- `ShippingCost` from `product.ts`. -/
structure ShippingCost where
  available : Bool
  cost : ℚ
  express_cost : Option ℚ
  free_threshold : Option ℚ
  estimated_days : EstimatedDays
deriving DecidableEq, Repr

/-- `ImportFees` from `product.ts`. -/
structure ImportFees where
  import_duty : ℚ
  vat : ℚ
  handling : ℚ
  customs_clearance : ℚ
deriving DecidableEq, Repr

/-- `PurchaseRisks` from `product.ts`. -/
structure PurchaseRisks where
  customs_delay : Bool
  warranty_void : Bool
  return_difficult : Bool
deriving DecidableEq, Repr

/-- `InternationalPricing` from `product.ts`. -/
structure InternationalPricing where
  shipping : ShippingCost
  fees : ImportFees
  total_landed_cost : ℚ
  risks : PurchaseRisks
deriving DecidableEq, Repr

/-- `Pricing` from `product.ts`. -/
structure Pricing where
  base : BasePrice
  local_total : Option ℚ
  international : Option InternationalPricing
deriving DecidableEq, Repr

/-- `RecommendationFactors` from `product.ts`. -/
structure RecommendationFactors where
  price_advantage : ℚ
  delivery_speed : ℚ
  seller_trust : ℚ
  hassle_factor : ℚ
deriving DecidableEq, Repr

/-- `Recommendation` from `product.ts` (dates modelled as `Nat`). -/
structure Recommendation where
  score : ℚ
  factors : RecommendationFactors
  last_checked : Nat
  price_trend : PriceTrend
deriving DecidableEq, Repr

/-- `Product` from `product.ts`: a single listing of one shop. -/
structure Product where
  _id : String
  product_group_id : String
  shop_info : ShopInfo
  name : String
  description : Option String
  image_url : Option String
  image_urls : Option (List String)
  product_url : String
  sku : Option String
  brand : Option String
  category : Option String
  rating : Option ℚ
  review_count : Option ℚ
  availability : AvailabilityStatus
  pricing : Pricing
  recommendation : Option Recommendation
  created_at : Nat
  updated_at : Nat
  last_scraped_at : Option Nat
deriving DecidableEq, Repr

/-- `SearchFilters` from packages/types `search.ts`. -/
structure SearchFilters where
  min_price : Option ℚ
  max_price : Option ℚ
  in_stock : Option Bool
  shops : Option (List String)
  categories : Option (List String)
  brands : Option (List String)
  min_rating : Option ℚ
  availability : Option (List AvailabilityStatus)
  country : Option Country
deriving DecidableEq, Repr

/-- The empty filter object `{}` (all fields absent). -/
def emptyFilters : SearchFilters :=
  ⟨none, none, none, none, none, none, none, none, none⟩

/-- `PaginationMeta` from `search.ts`. -/
structure PaginationMeta where
  current_page : Nat
  total_pages : Nat
  per_page : Nat
  total_results : Nat
  has_next : Bool
  has_prev : Bool
deriving DecidableEq, Repr

/-- The `summary` sub-object of `SmartDeal` in `search.ts`. -/
structure SmartDealSummary where
  best_local : ℚ
  best_international : ℚ
  savings : ℚ
  savings_percent : ℚ
  delivery_difference : ℚ
  shop : String
  country : String
deriving DecidableEq, Repr

/-- `SmartDeal` from `search.ts`. -/
structure SmartDeal where
  available : Bool
  message : Option String
  summary : Option SmartDealSummary
  product : Option Product
deriving DecidableEq, Repr

/-- `LocalSearchRequest` from `search.ts` (optional TS fields as `Option`). -/
structure LocalSearchRequest where
  query : String
  filters : Option SearchFilters
  sort_by : Option SortBy
  page : Option Nat
  per_page : Option Nat
  country : Country
  check_international : Option Bool
deriving DecidableEq, Repr

/-- `GlobalSearchRequest` from `search.ts`. -/
structure GlobalSearchRequest where
  query : String
  filters : Option SearchFilters
  sort_by : Option SortBy
  page : Option Nat
  per_page : Option Nat
  user_country : Country
  include_shipping : Bool
  include_all_fees : Bool
  min_seller_rating : Option ℚ
deriving DecidableEq, Repr

/-- `LocalSearchResponse` from `search.ts` (`took_ms` is wall-clock time and
is omitted from the embedding). -/
structure LocalSearchResponse where
  results : List Product
  pagination : PaginationMeta
  smart_deal : Option SmartDeal
  query : String
  filters : SearchFilters
deriving DecidableEq, Repr

/-- `GlobalSearchResponse` from `search.ts` (again without `took_ms`). -/
structure GlobalSearchResponse where
  results : List Product
  pagination : PaginationMeta
  query : String
  filters : SearchFilters
deriving DecidableEq, Repr

/-- JavaScript `x || d` on an optional number: `undefined` and `0` both fall
back to the default. -/
def orElseQ (x : Option ℚ) (d : ℚ) : ℚ :=
  match x with
  | some v => if v = 0 then d else v
  | none => d

/-- JavaScript `x || d` on an optional integer-valued number field. -/
def orElseNat (x : Option Nat) (d : Nat) : Nat :=
  match x with
  | some v => if v = 0 then d else v
  | none => d

/-- Effective cost used throughout the code:
`p.pricing.international?.total_landed_cost || p.pricing.base.amount`. -/
def effCost (p : Product) : ℚ :=
  orElseQ (p.pricing.international.map (fun i => i.total_landed_cost)) p.pricing.base.amount

/-- JavaScript `toLowerCase()` (modelled characterwise over the string's
characters). -/
def jsToLower (s : String) : String :=
  String.mk (s.data.map Char.toLower)

/-- Char-list prefix and containment, modelling JavaScript `String.includes`. -/
def charsInfix (sub : List Char) : List Char → Bool
  | [] => sub.isEmpty
  | c :: t => sub.isPrefixOf (c :: t) || charsInfix sub t

/-- JavaScript `s.includes(sub)`. -/
def strIncludes (s sub : String) : Bool :=
  charsInfix sub.data s.data

/-- `EXCHANGE_RATES` from packages/utils `currency.ts` (base currency USD). -/
def EXCHANGE_RATES : Currency → ℚ
  | Currency.USD => 1
  | Currency.ILS => 373 / 100
  | Currency.EUR => 92 / 100
  | Currency.GBP => 79 / 100

/-- JavaScript `Math.round(v * 100) / 100` (round half towards positive
infinity, to 2 decimal places). -/
def round2 (v : ℚ) : ℚ :=
  (Int.floor (v * 100 + 1 / 2) : ℚ) / 100

/-- `convertCurrency` from `currency.ts`: identity when the currencies agree,
otherwise divide by the source rate, multiply by the target rate, and round
to 2 decimal places. -/
def convertCurrency (amount : ℚ) (fromCurrency toCurrency : Currency) : ℚ :=
  if fromCurrency = toCurrency then
    amount
  else
    round2 (amount / EXCHANGE_RATES fromCurrency * EXCHANGE_RATES toCurrency)

/-- `getExchangeRate` from `currency.ts`. -/
def getExchangeRate (fromCurrency toCurrency : Currency) : ℚ :=
  if fromCurrency = toCurrency then 1
  else EXCHANGE_RATES toCurrency / EXCHANGE_RATES fromCurrency

/-- The truthiness guard of `SearchService.calculateTotalCost`:
`product.pricing.international?.total_landed_cost` (a `0` or absent landed
cost counts as falsy). -/
def hasPrecomputedLanded (product : Product) : Bool :=
  match product.pricing.international with
  | some intl => intl.total_landed_cost ≠ 0
  | none => false

/-- `SearchService.calculateTotalCost`: returns the product unchanged when the
truthiness guard holds, otherwise attaches an estimated international cost
(shipping 10% of base, duty+VAT pool 17% of base when `includeAllFees`, split
30% duty / 70% VAT, 14-day standard delivery, all risk flags true). -/
def calculateTotalCost (product : Product) (_userCountry : Country)
    (includeAllFees : Bool) : Product :=
  if hasPrecomputedLanded product then
    product
  else
    let basePrice := product.pricing.base.amount
    let estimatedShipping := basePrice * (1 / 10)
    let estimatedDuties := if includeAllFees then basePrice * (17 / 100) else 0
    { product with
      pricing :=
        { product.pricing with
          international := some
            { shipping :=
                { available := true
                  cost := estimatedShipping
                  express_cost := none
                  free_threshold := none
                  estimated_days := { standard := 14, express := none } }
              fees :=
                { import_duty := estimatedDuties * (3 / 10)
                  vat := estimatedDuties * (7 / 10)
                  handling := 0
                  customs_clearance := 0 }
              total_landed_cost := basePrice + estimatedShipping + estimatedDuties
              risks :=
                { customs_delay := true
                  warranty_void := true
                  return_difficult := true } } } }

/-- `SearchService.sortByTotalCost`: stable sort of the page by effective cost
(`total_landed_cost || base amount`), ascending or descending. -/
def sortByTotalCost (products : List Product) (descending : Bool) : List Product :=
  if descending then
    List.insertionSort (fun a b => effCost b ≤ effCost a) products
  else
    List.insertionSort (fun a b => effCost a ≤ effCost b) products

/-- `SearchService.buildPagination`: `total_pages = ceil(total/perPage)`,
`has_next = page < total_pages`, `has_prev = page > 1`. -/
def buildPagination (page perPage totalResults : Nat) : PaginationMeta :=
  let totalPages := (totalResults + perPage - 1) / perPage
  { current_page := page
    total_pages := totalPages
    per_page := perPage
    total_results := totalResults
    has_next := page < totalPages
    has_prev := page > 1 }

/-- One Meilisearch filter expression pushed by the filter builders
(each constructor mirrors one `filterArray.push(...)` template string). -/
inductive MeiliFilter where
  | shopTypeIs (t : ShopType)
  | shopCountryIs (c : Country)
  | minPrice (v : ℚ)
  | maxPrice (v : ℚ)
  | inStockOnly
  | shopNameIn (names : List String)
  | categoryIn (cs : List String)
  | brandIn (bs : List String)
  | ratingAtLeast (v : ℚ)
deriving DecidableEq, Repr

/-- `SearchService.buildLocalFilters`: local shop type, request country, then
optional price, stock, shop, category, brand and rating filters. -/
def buildLocalFilters (filters : SearchFilters) (country : Country) : List MeiliFilter :=
  [MeiliFilter.shopTypeIs ShopType.localShop, MeiliFilter.shopCountryIs country]
  ++ (match filters.min_price with
      | some v => [MeiliFilter.minPrice v]
      | none => [])
  ++ (match filters.max_price with
      | some v => [MeiliFilter.maxPrice v]
      | none => [])
  ++ (if filters.in_stock = some true then [MeiliFilter.inStockOnly] else [])
  ++ (match filters.shops with
      | some l => if l.length > 0 then [MeiliFilter.shopNameIn l] else []
      | none => [])
  ++ (match filters.categories with
      | some l => if l.length > 0 then [MeiliFilter.categoryIn l] else []
      | none => [])
  ++ (match filters.brands with
      | some l => if l.length > 0 then [MeiliFilter.brandIn l] else []
      | none => [])
  ++ (match filters.min_rating with
      | some v => [MeiliFilter.ratingAtLeast v]
      | none => [])

/-- `SearchService.buildGlobalFilters`: global shop type, then optional price,
stock, shop and rating filters plus the optional minimum seller rating.
The source pushes no category and no brand filter on this path. -/
def buildGlobalFilters (filters : SearchFilters) (minSellerRating : Option ℚ) :
    List MeiliFilter :=
  [MeiliFilter.shopTypeIs ShopType.globalShop]
  ++ (match filters.min_price with
      | some v => [MeiliFilter.minPrice v]
      | none => [])
  ++ (match filters.max_price with
      | some v => [MeiliFilter.maxPrice v]
      | none => [])
  ++ (if filters.in_stock = some true then [MeiliFilter.inStockOnly] else [])
  ++ (match filters.shops with
      | some l => if l.length > 0 then [MeiliFilter.shopNameIn l] else []
      | none => [])
  ++ (match filters.min_rating with
      | some v => [MeiliFilter.ratingAtLeast v]
      | none => [])
  ++ (match minSellerRating with
      | some v => [MeiliFilter.ratingAtLeast v]
      | none => [])

/-- Query matching of `MockDataService.searchLocal`/`searchGlobal`: the
lowercased query must occur in the name, brand, category or description
(optional chaining on the last three makes an absent field a non-match). -/
def matchesQuery (p : Product) (queryLower : String) : Bool :=
  strIncludes (jsToLower p.name) queryLower
  || (match p.brand with
      | some b => strIncludes (jsToLower b) queryLower
      | none => false)
  || (match p.category with
      | some c => strIncludes (jsToLower c) queryLower
      | none => false)
  || (match p.description with
      | some d => strIncludes (jsToLower d) queryLower
      | none => false)

/-- The shared `if (filters) { ... }` block of the mock search functions.
Each clause keeps JavaScript truthiness: a `min_price` of `0` is falsy and
imposes no constraint; `brands?.length`/`shops?.length` skip empty lists;
an absent brand is compared as the empty string.  The mock provider checks
no `categories` filter. -/
def passesMockFilters (p : Product) : Option SearchFilters → Bool
  | none => true
  | some f =>
    (match f.min_price with
     | some m => !(m ≠ 0 && p.pricing.base.amount < m)
     | none => true)
    && (match f.max_price with
        | some m => !(m ≠ 0 && p.pricing.base.amount > m)
        | none => true)
    && (match f.in_stock with
        | some s => !(s && p.availability ≠ AvailabilityStatus.in_stock)
        | none => true)
    && (match f.brands with
        | some bs => !(bs.length > 0 && !(bs.contains (p.brand.getD "")))
        | none => true)
    && (match f.shops with
        | some ss => !(ss.length > 0 && !(ss.contains p.shop_info.name))
        | none => true)
    && (match f.min_rating with
        | some r => !(r ≠ 0 && p.rating.getD 0 < r)
        | none => true)

/-- The listing predicate of `MockDataService.searchLocal`: local shop in the
requested country, matching the query, passing the filters. -/
def mockLocalPred (queryLower country : String) (filters : Option SearchFilters)
    (p : Product) : Bool :=
  p.shop_info.type = ShopType.localShop
  && p.shop_info.country = country
  && matchesQuery p queryLower
  && passesMockFilters p filters

/-- The listing predicate of `MockDataService.searchGlobal`: global shop that
ships to the user country, matching the query, passing the filters. -/
def mockGlobalPred (queryLower userCountry : String) (filters : Option SearchFilters)
    (p : Product) : Bool :=
  p.shop_info.type = ShopType.globalShop
  && p.shop_info.ships_to.contains userCountry
  && matchesQuery p queryLower
  && passesMockFilters p filters

/-- Recommendation score with the `|| 0` fallback used by the mock local sort. -/
def recScore (p : Product) : ℚ :=
  orElseQ (p.recommendation.map (fun r => r.score)) 0

/-- JavaScript `Number.prototype.toFixed(0)` for the deal message (nearest
integer, ties away from zero; the deal percentages are non-negative there,
where this is `floor (q + 1/2)`). -/
def toFixed0 (q : ℚ) : Int :=
  Int.floor (q + 1 / 2)

/-- The global alternatives collected by `MockDataService.findSmartDeal`:
global-market listings in the same product group, restricted to in-stock. -/
def smartDealAlternatives (products : List Product) (bestLocal : Product) :
    List Product :=
  products.filter (fun p =>
    p.shop_info.type = ShopType.globalShop
    && p.product_group_id = bestLocal.product_group_id
    && p.availability = AvailabilityStatus.in_stock)

/-- The `reduce` of `findSmartDeal`: linear scan for the listing of minimum
effective cost, first minimum wins. -/
def cheapestBy (h : Product) (t : List Product) : Product :=
  t.foldl (fun best current => if effCost current < effCost best then current else best) h

/-- Local price used by `findSmartDeal`:
`bestLocal.pricing.local_total || bestLocal.pricing.base.amount`. -/
def localDealPrice (bestLocal : Product) : ℚ :=
  orElseQ bestLocal.pricing.local_total bestLocal.pricing.base.amount

/-- Delivery estimate fallback of the deal summary:
`cheapest.pricing.international?.shipping.estimated_days.standard || 14`. -/
def dealDeliveryStd (cheapest : Product) : ℚ :=
  orElseQ (cheapest.pricing.international.map (fun i => i.shipping.estimated_days.standard)) 14

/-- `MockDataService.findSmartDeal`: absent without a best local listing or
without in-stock global alternatives in the group; otherwise compares the
local price with the cheapest alternative and surfaces a deal only when the
savings percentage is at least 10. -/
def findSmartDeal (products : List Product) (_query : String)
    (bestLocal : Option Product) : Option SmartDeal :=
  match bestLocal with
  | none => none
  | some best =>
    match smartDealAlternatives products best with
    | [] => none
    | h :: t =>
      let cheapestGlobal := cheapestBy h t
      let localPrice := localDealPrice best
      let globalPrice := effCost cheapestGlobal
      let savings := localPrice - globalPrice
      let savingsPercent := savings / localPrice * 100
      if savingsPercent < 10 then none
      else some
        { available := true
          message := some ("Save " ++ toString (toFixed0 savingsPercent)
            ++ "% by ordering from " ++ cheapestGlobal.shop_info.name)
          summary := some
            { best_local := localPrice
              best_international := globalPrice
              savings := savings
              savings_percent := savingsPercent
              delivery_difference := dealDeliveryStd cheapestGlobal - 3
              shop := cheapestGlobal.shop_info.name
              country := cheapestGlobal.shop_info.country }
          product := some cheapestGlobal }

/-- `MockDataService.searchLocal`: filter, stable sort by recommendation score
descending, paginate, then run smart-deal detection on the top result of the
page (unconditionally). -/
def mockSearchLocal (products : List Product) (query : String) (country : String)
    (filters : Option SearchFilters) (page perPage : Nat) : LocalSearchResponse :=
  let queryLower := jsToLower query
  let results := products.filter (mockLocalPred queryLower country filters)
  let sorted := List.insertionSort (fun a b => recScore b ≤ recScore a) results
  let totalResults := sorted.length
  let totalPages := (totalResults + perPage - 1) / perPage
  let startIndex := (page - 1) * perPage
  let paged := (sorted.drop startIndex).take perPage
  let smartDeal := findSmartDeal products query paged.head?
  { results := paged
    pagination :=
      { current_page := page
        total_pages := totalPages
        per_page := perPage
        total_results := totalResults
        has_next := page < totalPages
        has_prev := page > 1 }
    smart_deal := smartDeal
    query := query
    filters := filters.getD emptyFilters }

/-- `MockDataService.searchGlobal`: filter (including the ships-to check),
stable sort by effective landed cost ascending, paginate. -/
def mockSearchGlobal (products : List Product) (query : String) (userCountry : String)
    (filters : Option SearchFilters) (page perPage : Nat) : GlobalSearchResponse :=
  let queryLower := jsToLower query
  let results := products.filter (mockGlobalPred queryLower userCountry filters)
  let sorted := List.insertionSort (fun a b => effCost a ≤ effCost b) results
  let totalResults := sorted.length
  let totalPages := (totalResults + perPage - 1) / perPage
  let startIndex := (page - 1) * perPage
  let paged := (sorted.drop startIndex).take perPage
  { results := paged
    pagination :=
      { current_page := page
        total_pages := totalPages
        per_page := perPage
        total_results := totalResults
        has_next := page < totalPages
        has_prev := page > 1 }
    query := query
    filters := filters.getD emptyFilters }

/-- Outcome of the primary search-index provider call (the external
Meilisearch collaborator): either hits with an estimated total, or a
transient failure (timeout, connection error, malformed response). -/
inductive IndexOutcome where
  | success (hits : List Product) (estimatedTotalHits : Nat)
  | failure
deriving DecidableEq, Repr

/-- Which data backend `SearchService` was constructed with: the in-memory
mock provider (`useMockData`) or the Meilisearch index, whose reply for the
current request is the given outcome. -/
inductive DataBackend where
  | mockData (products : List Product)
  | meili (outcome : IndexOutcome)
deriving DecidableEq, Repr

/-- Result shape of `SearchService.searchLocal`/`searchGlobal`
(the internal `SearchResult` interface). -/
structure SvcSearchResult where
  products : List Product
  pagination : PaginationMeta
  smartDeal : Option SmartDeal
deriving DecidableEq, Repr

/-- `SearchService.checkSmartDeals`: the stubbed detector of the Meilisearch
path; always returns `{ available: false }`. -/
def checkSmartDeals (_query : String) (_localProduct : Product)
    (_userCountry : Country) : SmartDeal :=
  { available := false, message := none, summary := none, product := none }

/-- `SearchService.fallbackSearchLocal`: the degraded path taken when the
index provider fails; returns no products and a zero-total pagination built
from `request.page || 1` and `request.per_page || 20`. -/
def fallbackSearchLocal (request : LocalSearchRequest) : SvcSearchResult :=
  { products := []
    pagination := buildPagination (orElseNat request.page 1) (orElseNat request.per_page 20) 0
    smartDeal := none }

/-- `SearchService.searchLocal`: destructures the request with defaults
(`sort_by = relevance`, `page = 1`, `per_page = 20`,
`check_international = false`, `filters = {}`), delegates to the mock
provider in mock mode, otherwise queries the index; on success it maps the
hits, builds pagination from `estimatedTotalHits || 0` and runs the smart
deal check only when `check_international` holds and a first product
exists; on failure it falls back to `fallbackSearchLocal`. -/
def searchLocal (backend : DataBackend) (request : LocalSearchRequest) : SvcSearchResult :=
  let query := request.query
  let filters := request.filters.getD emptyFilters
  let page := request.page.getD 1
  let per_page := request.per_page.getD 20
  let country := request.country
  let check_international := request.check_international.getD false
  match backend with
  | DataBackend.mockData products =>
    let mockResult := mockSearchLocal products query (countryCode country)
      (some filters) page per_page
    { products := mockResult.results
      pagination := mockResult.pagination
      smartDeal := mockResult.smart_deal }
  | DataBackend.meili IndexOutcome.failure => fallbackSearchLocal request
  | DataBackend.meili (IndexOutcome.success hits estimatedTotalHits) =>
    let products := hits
    let pagination := buildPagination page per_page (orElseNat (some estimatedTotalHits) 0)
    let smartDeal :=
      match products.head? with
      | some firstProduct =>
        if check_international then some (checkSmartDeals query firstProduct country)
        else none
      | none => none
    { products := products, pagination := pagination, smartDeal := smartDeal }

/-- `SearchService.fallbackSearchGlobal`. -/
def fallbackSearchGlobal (request : GlobalSearchRequest) : SvcSearchResult :=
  { products := []
    pagination := buildPagination (orElseNat request.page 1) (orElseNat request.per_page 20) 0
    smartDeal := none }

/-- `SearchService.searchGlobal`: mock mode delegates to the mock provider;
otherwise the index is queried, landed costs are attached when shipping or
fee inclusion is requested, and price sorts are re-sorted by total cost. -/
def searchGlobal (backend : DataBackend) (request : GlobalSearchRequest) : SvcSearchResult :=
  let query := request.query
  let filters := request.filters.getD emptyFilters
  let sort_by := request.sort_by.getD SortBy.price_asc
  let page := request.page.getD 1
  let per_page := request.per_page.getD 20
  let user_country := request.user_country
  match backend with
  | DataBackend.mockData products =>
    let mockResult := mockSearchGlobal products query (countryCode user_country)
      (some filters) page per_page
    { products := mockResult.results
      pagination := mockResult.pagination
      smartDeal := none }
  | DataBackend.meili IndexOutcome.failure => fallbackSearchGlobal request
  | DataBackend.meili (IndexOutcome.success hits estimatedTotalHits) =>
    let products0 := hits
    let products1 :=
      if request.include_shipping || request.include_all_fees then
        products0.map (fun product =>
          calculateTotalCost product user_country request.include_all_fees)
      else products0
    let products2 :=
      if sort_by = SortBy.price_asc || sort_by = SortBy.price_desc then
        sortByTotalCost products1 (sort_by = SortBy.price_desc)
      else products1
    { products := products2
      pagination := buildPagination page per_page (orElseNat (some estimatedTotalHits) 0)
      smartDeal := none }

/-- JavaScript default `Array.prototype.sort()` on string arrays: ascending
lexicographic order (modelled with the `String` linear order). -/
def sortStrings (l : List String) : List String :=
  List.insertionSort (fun a b => a ≤ b) l

/-- String rendering of a numeric field inside a template literal
(`${v}`); integral rationals print like JavaScript integers. -/
def qStr (q : ℚ) : String :=
  if q.den = 1 then toString q.num else toString q

/-- One step of the DJB2 variant in `CacheService.simpleHash`:
`hash = (hash * 33) ^ charCode`, on 32-bit values. -/
def djb2Step (h : Nat) (c : Char) : Nat :=
  Nat.xor ((h * 33) % 4294967296) c.toNat

/-- `CacheService.simpleHash` before hex encoding: DJB2 from seed 5381 over
the characters of the string, as an unsigned 32-bit value. -/
def djb2 (s : String) : Nat :=
  s.data.foldl djb2Step 5381

/-- Hex encoding of the hash (`(hash >>> 0).toString(16)`). -/
def natToHex (n : Nat) : String :=
  String.mk (Nat.toDigits 16 n)

/-- The `type` argument of `buildSearchCacheKey`. -/
inductive SearchKind where
  | localKind
  | globalKind
deriving DecidableEq, Repr

/-- The request union `LocalSearchRequest | GlobalSearchRequest` accepted by
`buildSearchCacheKey` (the `"country" in request` checks discriminate it). -/
inductive SearchReq where
  | localReq (r : LocalSearchRequest)
  | globalReq (r : GlobalSearchRequest)
deriving DecidableEq, Repr

/-- Query text of either request variant. -/
def SearchReq.query : SearchReq → String
  | SearchReq.localReq r => r.query
  | SearchReq.globalReq r => r.query

/-- Page of either request variant. -/
def SearchReq.page : SearchReq → Option Nat
  | SearchReq.localReq r => r.page
  | SearchReq.globalReq r => r.page

/-- Page size of either request variant. -/
def SearchReq.per_page : SearchReq → Option Nat
  | SearchReq.localReq r => r.per_page
  | SearchReq.globalReq r => r.per_page

/-- Sort key of either request variant. -/
def SearchReq.sort_by : SearchReq → Option SortBy
  | SearchReq.localReq r => r.sort_by
  | SearchReq.globalReq r => r.sort_by

/-- Filter set of either request variant. -/
def SearchReq.filters : SearchReq → Option SearchFilters
  | SearchReq.localReq r => r.filters
  | SearchReq.globalReq r => r.filters

/-- The token pushed for one multi-value filter list
(`label:${list.sort().join(",")}` when the list is present and non-empty,
mirroring the truthy `?.length` guard). -/
def multiValueToken (label : String) : Option (List String) → List String
  | some l => if l.length > 0 then [label ++ ":" ++ String.intercalate "," (sortStrings l)] else []
  | none => []

/-- The filter tokens appended by `buildSearchCacheKey` when `request.filters`
is present: ordered `field:value` parts, with the multi-value lists
(shops, categories, brands) sorted before joining. -/
def filterKeyParts (f : SearchFilters) : List String :=
  (match f.min_price with
   | some v => ["min_price:" ++ qStr v]
   | none => [])
  ++ (match f.max_price with
      | some v => ["max_price:" ++ qStr v]
      | none => [])
  ++ (match f.in_stock with
      | some b => ["in_stock:" ++ (if b then "true" else "false")]
      | none => [])
  ++ multiValueToken "shops" f.shops
  ++ multiValueToken "categories" f.categories
  ++ multiValueToken "brands" f.brands
  ++ (match f.min_rating with
      | some v => ["min_rating:" ++ qStr v]
      | none => [])

/-- `CacheService.buildSearchCacheKey`: normalized query, ordered page /
page-size / sort / country tokens, then the filter tokens; the joined string
is hashed with `simpleHash` and prefixed by the namespace of the kind. -/
def buildSearchCacheKey (type : SearchKind) (request : SearchReq) : String :=
  let keyParts : List String :=
    [(jsToLower request.query).trim,
     "page:" ++ toString (orElseNat request.page 1),
     "per_page:" ++ toString (orElseNat request.per_page 20),
     "sort:" ++ (match request.sort_by with
                 | some s => sortByCode s
                 | none => "relevance")]
    ++ (match request with
        | SearchReq.localReq r => ["country:" ++ countryCode r.country]
        | SearchReq.globalReq r => ["country:" ++ countryCode r.user_country])
    ++ (match request.filters with
        | some f => filterKeyParts f
        | none => [])
  let keyString := String.intercalate "|" keyParts
  (match type with
   | SearchKind.localKind => "search:local:"
   | SearchKind.globalKind => "search:global:")
  ++ natToHex (djb2 keyString)

/-- Result of one pass through the local search route handler: the HTTP
response together with every `cacheService.set` call it performed. -/
structure LocalRouteResult where
  response : LocalSearchResponse
  cacheWrites : List (String × LocalSearchResponse)
deriving DecidableEq, Repr

/-- The POST /api/v1/search/local handler (routes/search/local.route.ts)
after validation: build the cache key, return the cached response on a hit;
on a miss run `searchLocal` and unconditionally cache the built response.
`cached` is the reply of `cacheService.get` for this request's key. -/
def localSearchRoute (cached : Option LocalSearchResponse) (backend : DataBackend)
    (body : LocalSearchRequest) : LocalRouteResult :=
  let cacheKey := buildSearchCacheKey SearchKind.localKind (SearchReq.localReq body)
  match cached with
  | some cachedResult => { response := cachedResult, cacheWrites := [] }
  | none =>
    let searchResult := searchLocal backend body
    let response : LocalSearchResponse :=
      { results := searchResult.products
        pagination := searchResult.pagination
        smart_deal := searchResult.smartDeal
        query := body.query
        filters := body.filters.getD emptyFilters }
    { response := response, cacheWrites := [(cacheKey, response)] }

/-! Shared helper definitions for the proofs and their concrete instances. -/

/-- The `total_landed_cost` field of a listing's international breakdown,
if any. -/
def landedTotalField (p : Product) : Option ℚ :=
  p.pricing.international.map (fun i => i.total_landed_cost)

/-- A minimal local listing: in-stock headphones at a local IL shop,
base price 100 USD, no precomputed international cost. -/
def baseProduct : Product :=
  { _id := "p1"
    product_group_id := "g1"
    shop_info :=
      { name := "KSP"
        type := ShopType.localShop
        country := "IL"
        ships_to := []
        is_marketplace := false
        global_reach := false }
    name := "headphones"
    description := none
    image_url := none
    image_urls := none
    product_url := "https://example.com/p1"
    sku := none
    brand := none
    category := none
    rating := none
    review_count := none
    availability := AvailabilityStatus.in_stock
    pricing :=
      { base := { amount := 100, currency := Currency.USD, includes_tax := false }
        local_total := none
        international := none }
    recommendation := none
    created_at := 0
    updated_at := 0
    last_scraped_at := none }

/-- An international breakdown with a given landed total (other fields
minimal). -/
def intlWith (total : ℚ) : InternationalPricing :=
  { shipping :=
      { available := true
        cost := 5
        express_cost := none
        free_threshold := none
        estimated_days := { standard := 10, express := none } }
    fees := { import_duty := 0, vat := 0, handling := 0, customs_clearance := 0 }
    total_landed_cost := total
    risks := { customs_delay := false, warranty_void := false, return_difficult := false } }

/-- `baseProduct` with an attached international breakdown. -/
def withIntl (total : ℚ) : Product :=
  { baseProduct with
    pricing := { baseProduct.pricing with international := some (intlWith total) } }

/-- C3: for a listing with no precomputed landed cost, `calculateTotalCost`
attaches an estimate with shipping equal to 10% of the base price, a duty+VAT
pool of 17% of base when fees are included and 0 otherwise split 30%/70%,
total landed cost equal to base + shipping + pool, a 14-day standard delivery
estimate, and all three risk flags true. -/
theorem calculateTotalCost_estimates (p : Product) (c : Country) (includeAllFees : Bool)
    (h : p.pricing.international = none) :
    ∃ intl : InternationalPricing,
      (calculateTotalCost p c includeAllFees).pricing.international = some intl ∧
      intl.shipping.cost = p.pricing.base.amount * (1 / 10) ∧
      intl.fees.import_duty
        = (if includeAllFees then p.pricing.base.amount * (17 / 100) else 0) * (3 / 10) ∧
      intl.fees.vat
        = (if includeAllFees then p.pricing.base.amount * (17 / 100) else 0) * (7 / 10) ∧
      intl.total_landed_cost
        = p.pricing.base.amount + p.pricing.base.amount * (1 / 10)
          + (if includeAllFees then p.pricing.base.amount * (17 / 100) else 0) ∧
      intl.shipping.estimated_days.standard = 14 ∧
      intl.risks.customs_delay = true ∧
      intl.risks.warranty_void = true ∧
      intl.risks.return_difficult = true := by
  have hguard : hasPrecomputedLanded p = false := by
    simp [hasPrecomputedLanded, h]
  simp only [calculateTotalCost, hguard, Bool.false_eq_true, if_false]
  exact ⟨_, rfl, rfl, rfl, rfl, rfl, rfl, rfl, rfl, rfl⟩

/-- Witness for C3 at `baseProduct` (base price 100, fees included): the
hypothesis holds and the estimated landed total is 127. -/
theorem calculateTotalCost_estimates_witness :
    baseProduct.pricing.international = none ∧
    (∃ intl : InternationalPricing,
      (calculateTotalCost baseProduct Country.IL true).pricing.international = some intl ∧
      intl.shipping.cost = baseProduct.pricing.base.amount * (1 / 10) ∧
      intl.fees.import_duty
        = (if True then baseProduct.pricing.base.amount * (17 / 100) else 0) * (3 / 10) ∧
      intl.fees.vat
        = (if True then baseProduct.pricing.base.amount * (17 / 100) else 0) * (7 / 10) ∧
      intl.total_landed_cost
        = baseProduct.pricing.base.amount + baseProduct.pricing.base.amount * (1 / 10)
          + (if True then baseProduct.pricing.base.amount * (17 / 100) else 0) ∧
      intl.shipping.estimated_days.standard = 14 ∧
      intl.risks.customs_delay = true ∧
      intl.risks.warranty_void = true ∧
      intl.risks.return_difficult = true) ∧
    landedTotalField (calculateTotalCost baseProduct Country.IL true) = some 127 := by
  refine ⟨rfl, by simpa using calculateTotalCost_estimates baseProduct Country.IL true rfl, ?_⟩
  have h := calculateTotalCost_estimates baseProduct Country.IL true rfl
  rcases h with ⟨intl, hsome, _, _, _, htot, _⟩
  have h127 : intl.total_landed_cost = 127 := by
    rw [htot]
    norm_num [baseProduct]
  simp [landedTotalField, hsome, h127]

/-- C4 counterexample: a listing whose `pricing.international.total_landed_cost`
is set — to 0 — is not returned unchanged: the guard is a truthiness check, so
the cost breakdown is recomputed and the listing is altered. -/
theorem calculateTotalCost_not_idempotent_at_zero :
    landedTotalField (withIntl 0) = some 0 ∧
    calculateTotalCost (withIntl 0) Country.IL true ≠ withIntl 0 := by
  constructor
  · rfl
  · intro hEq
    have hL : landedTotalField (calculateTotalCost (withIntl 0) Country.IL true) = some 127 := by
      have hguard : hasPrecomputedLanded (withIntl 0) = false := by
        simp [hasPrecomputedLanded, withIntl, intlWith, baseProduct]
      simp only [calculateTotalCost, hguard, Bool.false_eq_true, if_false, landedTotalField,
        Option.map_some]
      norm_num [withIntl, intlWith, baseProduct]
    rw [hEq] at hL
    have h0 : landedTotalField (withIntl 0) = some 0 := rfl
    rw [h0] at hL
    exact absurd (Option.some.inj hL) (by norm_num)

/-- C4 (amended): for a listing whose international breakdown carries a
non-zero `total_landed_cost`, `calculateTotalCost` returns the listing
unchanged, whatever the destination country and the fee flag. -/
theorem calculateTotalCost_idempotent (p : Product) (c : Country) (includeAllFees : Bool)
    (intl : InternationalPricing)
    (h1 : p.pricing.international = some intl)
    (h2 : intl.total_landed_cost ≠ 0) :
    calculateTotalCost p c includeAllFees = p := by
  have hguard : hasPrecomputedLanded p = true := by
    simp [hasPrecomputedLanded, h1, h2]
  simp [calculateTotalCost, hguard]

/-- Witness for the amended C4 at a listing with precomputed landed total
150. -/
theorem calculateTotalCost_idempotent_witness :
    calculateTotalCost (withIntl 150) Country.US false = withIntl 150 :=
  calculateTotalCost_idempotent (withIntl 150) Country.US false (intlWith 150) rfl
    (by norm_num [intlWith])

/-- C8 counterexample: a listing carrying a precomputed landed total of 50
with base price 100 defeats the claimed chain, because `calculateTotalCost`
keeps the precomputed value and `50 ≥ 100` fails. -/
theorem landed_cost_chain_counterexample :
    ¬ ((landedTotalField (calculateTotalCost (withIntl 50) Country.IL false)).getD 0
        ≤ (landedTotalField (calculateTotalCost (withIntl 50) Country.IL true)).getD 0 ∧
      (withIntl 50).pricing.base.amount
        ≤ (landedTotalField (calculateTotalCost (withIntl 50) Country.IL false)).getD 0) := by
  intro hchain
  have hkeep : calculateTotalCost (withIntl 50) Country.IL false = withIntl 50 :=
    calculateTotalCost_idempotent (withIntl 50) Country.IL false (intlWith 50) rfl
      (by norm_num [intlWith])
  rw [hkeep] at hchain
  have h50 : landedTotalField (withIntl 50) = some 50 := rfl
  have hbase : (withIntl 50).pricing.base.amount = 100 := rfl
  rw [h50, hbase] at hchain
  have := hchain.2
  norm_num at this

/-- C8 (amended): for a listing with non-negative base price and no truthy
precomputed landed cost, the computed totals satisfy
`base ≤ total(includeFees = false) ≤ total(includeFees = true)`. -/
theorem landed_cost_monotone (p : Product) (c : Country)
    (h0 : 0 ≤ p.pricing.base.amount)
    (h : hasPrecomputedLanded p = false) :
    p.pricing.base.amount
      ≤ (landedTotalField (calculateTotalCost p c false)).getD 0 ∧
    (landedTotalField (calculateTotalCost p c false)).getD 0
      ≤ (landedTotalField (calculateTotalCost p c true)).getD 0 := by
  simp only [calculateTotalCost, h, Bool.false_eq_true, if_false, landedTotalField]
  simp only [Option.map_some', Option.getD_some, if_true]
  constructor
  · nlinarith [h0]
  · nlinarith [h0]

/-- Witness for the amended C8 at `baseProduct` (base 100, totals 110 and
127). -/
theorem landed_cost_monotone_witness :
    (0 : ℚ) ≤ baseProduct.pricing.base.amount ∧
    hasPrecomputedLanded baseProduct = false ∧
    (baseProduct.pricing.base.amount
        ≤ (landedTotalField (calculateTotalCost baseProduct Country.IL false)).getD 0 ∧
      (landedTotalField (calculateTotalCost baseProduct Country.IL false)).getD 0
        ≤ (landedTotalField (calculateTotalCost baseProduct Country.IL true)).getD 0) :=
  ⟨by norm_num [baseProduct], rfl,
    landed_cost_monotone baseProduct Country.IL (by norm_num [baseProduct]) rfl⟩

/-- C2: threshold behaviour of the smart-deal detector.  Given a best local
listing with positive effective local price and a non-empty set of in-stock
global alternatives in its product group, `findSmartDeal` returns absent
exactly when the savings percentage is below 10, and otherwise a populated
deal whose `savings_percent` equals that percentage. -/
theorem findSmartDeal_threshold (products : List Product) (query : String) (best : Product)
    (altHead : Product) (altTail : List Product)
    (hAlts : smartDealAlternatives products best = altHead :: altTail)
    (_hpos : 0 < localDealPrice best) :
    ((localDealPrice best - effCost (cheapestBy altHead altTail)) / localDealPrice best * 100 < 10 →
      findSmartDeal products query (some best) = none) ∧
    (10 ≤ (localDealPrice best - effCost (cheapestBy altHead altTail)) / localDealPrice best * 100 →
      findSmartDeal products query (some best) = some
        { available := true
          message := some ("Save "
            ++ toString (toFixed0
              ((localDealPrice best - effCost (cheapestBy altHead altTail))
                / localDealPrice best * 100))
            ++ "% by ordering from " ++ (cheapestBy altHead altTail).shop_info.name)
          summary := some
            { best_local := localDealPrice best
              best_international := effCost (cheapestBy altHead altTail)
              savings := localDealPrice best - effCost (cheapestBy altHead altTail)
              savings_percent :=
                (localDealPrice best - effCost (cheapestBy altHead altTail))
                  / localDealPrice best * 100
              delivery_difference := dealDeliveryStd (cheapestBy altHead altTail) - 3
              shop := (cheapestBy altHead altTail).shop_info.name
              country := (cheapestBy altHead altTail).shop_info.country }
          product := some (cheapestBy altHead altTail) }) := by
  constructor
  · intro hlt
    simp only [findSmartDeal, hAlts]
    rw [if_pos hlt]
  · intro hge
    simp only [findSmartDeal, hAlts]
    rw [if_neg (not_lt.mpr hge)]

/-- A global in-stock alternative in group g1 with a given landed total. -/
def altWith (total : ℚ) : Product :=
  { baseProduct with
    _id := "alt1"
    shop_info :=
      { name := "Amazon"
        type := ShopType.globalShop
        country := "US"
        ships_to := ["IL", "US"]
        is_marketplace := true
        global_reach := true }
    pricing :=
      { base := { amount := 80, currency := Currency.USD, includes_tax := false }
        local_total := none
        international := some (intlWith total) } }

/-- Witness for C2: against a local price of 100, a global landed cost of 95
yields no deal (5% savings), while 85 yields a populated deal with
`savings_percent = 15`. -/
theorem findSmartDeal_threshold_witness :
    (0 : ℚ) < localDealPrice baseProduct ∧
    findSmartDeal [baseProduct, altWith 95] "headphones" (some baseProduct) = none ∧
    ∃ d : SmartDeal,
      findSmartDeal [baseProduct, altWith 85] "headphones" (some baseProduct) = some d ∧
      d.available = true ∧
      d.summary.map (fun s => s.savings_percent) = some 15 := by
  have hpos : (0 : ℚ) < localDealPrice baseProduct := by
    norm_num [localDealPrice, orElseQ, baseProduct]
  have hAlts95 : smartDealAlternatives [baseProduct, altWith 95] baseProduct = [altWith 95] := by
    simp [smartDealAlternatives, baseProduct, altWith, intlWith]
  have hAlts85 : smartDealAlternatives [baseProduct, altWith 85] baseProduct = [altWith 85] := by
    simp [smartDealAlternatives, baseProduct, altWith, intlWith]
  have hL : localDealPrice baseProduct = 100 := by
    norm_num [localDealPrice, orElseQ, baseProduct]
  have hG95 : effCost (cheapestBy (altWith 95) []) = 95 := by
    norm_num [cheapestBy, effCost, orElseQ, altWith, intlWith]
  have hG85 : effCost (cheapestBy (altWith 85) []) = 85 := by
    norm_num [cheapestBy, effCost, orElseQ, altWith, intlWith]
  refine ⟨hpos, ?_, ?_⟩
  · exact (findSmartDeal_threshold [baseProduct, altWith 95] "headphones" baseProduct
      (altWith 95) [] hAlts95 hpos).1 (by rw [hL, hG95]; norm_num)
  · refine ⟨_, (findSmartDeal_threshold [baseProduct, altWith 85] "headphones" baseProduct
      (altWith 85) [] hAlts85 hpos).2 (by rw [hL, hG85]; norm_num), rfl, ?_⟩
    simp only [Option.map_some']
    rw [hL, hG85]
    norm_num

/-- Every exchange rate in the fixed table is positive. -/
theorem EXCHANGE_RATES_pos (c : Currency) : 0 < EXCHANGE_RATES c := by
  cases c <;> norm_num [EXCHANGE_RATES]

/-- Rounding to 2 decimals moves a value by at most half a cent. -/
theorem abs_round2_sub_le (v : ℚ) : |round2 v - v| ≤ 1 / 200 := by
  have h1 : (Int.floor (v * 100 + 1 / 2) : ℚ) ≤ v * 100 + 1 / 2 := Int.floor_le _
  have h2 : v * 100 + 1 / 2 - 1 < (Int.floor (v * 100 + 1 / 2) : ℚ) := Int.sub_one_lt_floor _
  rw [abs_le]
  unfold round2
  constructor <;> [linarith; linarith]

/-- C9 counterexample: converting 0.018 ILS to USD rounds to 0, and
converting back gives 0, which is 0.018 away from the original amount —
beyond the claimed 0.01 tolerance. -/
theorem convertCurrency_roundtrip_counterexample :
    (0 : ℚ) < 18 / 1000 ∧
    ¬ |convertCurrency (convertCurrency (18 / 1000) Currency.ILS Currency.USD)
        Currency.USD Currency.ILS - 18 / 1000| ≤ 1 / 100 := by
  constructor
  · norm_num
  · have hfwd : convertCurrency (18 / 1000) Currency.ILS Currency.USD = 0 := by
      have : ((18 : ℚ) / 1000 / (373 / 100) * 1) * 100 + 1 / 2 = 733 / 746 := by norm_num
      simp only [convertCurrency, EXCHANGE_RATES, round2, reduceCtorEq, if_false, this]
      norm_num
    rw [hfwd]
    have hback : convertCurrency 0 Currency.USD Currency.ILS = 0 := by
      have : ((0 : ℚ) / 1 * (373 / 100)) * 100 + 1 / 2 = 1 / 2 := by norm_num
      simp only [convertCurrency, EXCHANGE_RATES, round2, reduceCtorEq, if_false, this]
      norm_num
    rw [hback]
    simp only [zero_sub, abs_neg]
    rw [abs_of_pos (by norm_num : (0 : ℚ) < 18 / 1000)]
    norm_num

/-- Identity conversion returns the amount unchanged. -/
theorem convertCurrency_self (x : ℚ) (c : Currency) : convertCurrency x c c = x := by
  simp [convertCurrency]

/-- C9 (amended): for every currency pair and every positive amount, the
round trip is within `0.005 * (rate A / rate B) + 0.005` of the original
amount; the claimed uniform 0.01 bound holds only when `rate A ≤ rate B`. -/
theorem convertCurrency_roundtrip_bound (a b : Currency) (x : ℚ) (_hx : 0 < x) :
    |convertCurrency (convertCurrency x a b) b a - x|
      ≤ 1 / 200 * (EXCHANGE_RATES a / EXCHANGE_RATES b) + 1 / 200 := by
  have hra : 0 < EXCHANGE_RATES a := EXCHANGE_RATES_pos a
  have hrb : 0 < EXCHANGE_RATES b := EXCHANGE_RATES_pos b
  by_cases hab : a = b
  · subst hab
    rw [convertCurrency_self, convertCurrency_self, sub_self, abs_zero]
    nlinarith [div_pos hrb hrb]
  · have hba : b ≠ a := Ne.symm hab
    simp only [convertCurrency, if_neg hab, if_neg hba]
    set rA := EXCHANGE_RATES a with hrAdef
    set rB := EXCHANGE_RATES b with hrBdef
    set y := x / rA * rB with hy
    set c := round2 y with hc
    set z := c / rB * rA with hz
    have e1 : |c - y| ≤ 1 / 200 := abs_round2_sub_le y
    have e2 : |round2 z - z| ≤ 1 / 200 := abs_round2_sub_le z
    have hzx : z - x = (c - y) * (rA / rB) := by
      rw [hz, hy]
      field_simp
      ring
    have hsplit : round2 z - x = (round2 z - z) + (z - x) := by ring
    calc |round2 z - x| = |(round2 z - z) + (z - x)| := by rw [hsplit]
      _ ≤ |round2 z - z| + |z - x| := abs_add _ _
      _ ≤ 1 / 200 + |c - y| * (rA / rB) := by
          rw [hzx, abs_mul, abs_of_pos (div_pos hra hrb)]
          linarith
      _ ≤ 1 / 200 + (1 / 200) * (rA / rB) := by
          have hdiv : 0 < rA / rB := div_pos hra hrb
          nlinarith [e1, hdiv]
      _ = 1 / 200 * (rA / rB) + 1 / 200 := by ring

/-- Witness for the amended C9 with USD to EUR on amount 1. -/
theorem convertCurrency_roundtrip_bound_witness :
    |convertCurrency (convertCurrency 1 Currency.USD Currency.EUR)
        Currency.EUR Currency.USD - 1|
      ≤ 1 / 200 * (EXCHANGE_RATES Currency.USD / EXCHANGE_RATES Currency.EUR) + 1 / 200 :=
  convertCurrency_roundtrip_bound Currency.USD Currency.EUR 1 (by norm_num)

/-- Sorting is invariant under permutation of the input list of strings. -/
theorem sortStrings_perm_eq {l l' : List String} (h : l.Perm l') :
    sortStrings l = sortStrings l' := by
  exact List.eq_of_perm_of_sorted
    (((List.perm_insertionSort (fun a b : String => a ≤ b) l).trans h).trans
      (List.perm_insertionSort (fun a b : String => a ≤ b) l').symm)
    (List.sorted_insertionSort (fun a b : String => a ≤ b) l)
    (List.sorted_insertionSort (fun a b : String => a ≤ b) l')

/-- Pointwise permutation of optional string lists (both absent, or both
present and permutations of each other). -/
def OptPerm : Option (List String) → Option (List String) → Prop
  | some l, some l' => l.Perm l'
  | none, none => True
  | _, _ => False

instance : ∀ a b : Option (List String), Decidable (OptPerm a b) := fun a b => by
  cases a <;> cases b <;> simp only [OptPerm] <;> infer_instance

/-- Replace the filter set of either request variant. -/
def SearchReq.withFilters : SearchReq → Option SearchFilters → SearchReq
  | SearchReq.localReq r, f => SearchReq.localReq { r with filters := f }
  | SearchReq.globalReq r, f => SearchReq.globalReq { r with filters := f }

/-- The multi-value token is invariant under permutation of the list. -/
theorem multiValueToken_perm_eq (label : String) {a b : Option (List String)}
    (hab : OptPerm a b) : multiValueToken label a = multiValueToken label b := by
  match a, b with
  | some l, some l' =>
    have hperm : l.Perm l' := hab
    have hlen : l.length = l'.length := List.Perm.length_eq hperm
    simp only [multiValueToken, hlen, sortStrings_perm_eq hperm]
  | none, none => rfl
  | some l, none => exact absurd hab (by simp [OptPerm])
  | none, some l' => exact absurd hab (by simp [OptPerm])

/-- The filter tokens agree on filter sets whose scalar fields agree and
whose multi-value lists are permutations of one another. -/
theorem filterKeyParts_perm_eq (f f' : SearchFilters)
    (hmin : f.min_price = f'.min_price) (hmax : f.max_price = f'.max_price)
    (hstock : f.in_stock = f'.in_stock)
    (hshops : OptPerm f.shops f'.shops)
    (hcats : OptPerm f.categories f'.categories)
    (hbrands : OptPerm f.brands f'.brands)
    (hrat : f.min_rating = f'.min_rating) :
    filterKeyParts f = filterKeyParts f' := by
  unfold filterKeyParts
  rw [hmin, hmax, hstock, hrat, multiValueToken_perm_eq "shops" hshops,
    multiValueToken_perm_eq "categories" hcats, multiValueToken_perm_eq "brands" hbrands]

/-- C5: for every request of either kind, the cache key is unchanged when the
multi-value filter lists (shops, categories, brands) are permuted (the other
filter fields staying equal). -/
theorem buildSearchCacheKey_order_independent (t : SearchKind) (r : SearchReq)
    (f f' : SearchFilters)
    (hmin : f.min_price = f'.min_price) (hmax : f.max_price = f'.max_price)
    (hstock : f.in_stock = f'.in_stock)
    (hshops : OptPerm f.shops f'.shops)
    (hcats : OptPerm f.categories f'.categories)
    (hbrands : OptPerm f.brands f'.brands)
    (hrat : f.min_rating = f'.min_rating) :
    buildSearchCacheKey t (r.withFilters (some f))
      = buildSearchCacheKey t (r.withFilters (some f')) := by
  have hfk : filterKeyParts f = filterKeyParts f' :=
    filterKeyParts_perm_eq f f' hmin hmax hstock hshops hcats hbrands hrat
  cases r with
  | localReq lr =>
    simp only [buildSearchCacheKey, SearchReq.withFilters, SearchReq.query, SearchReq.page,
      SearchReq.per_page, SearchReq.sort_by, SearchReq.filters, hfk]
  | globalReq gr =>
    simp only [buildSearchCacheKey, SearchReq.withFilters, SearchReq.query, SearchReq.page,
      SearchReq.per_page, SearchReq.sort_by, SearchReq.filters, hfk]

/-- A concrete local request used by the cache-key witness. -/
def reqKeyBase : LocalSearchRequest :=
  { query := "Headphones"
    filters := none
    sort_by := some SortBy.relevance
    page := some 1
    per_page := some 20
    country := Country.IL
    check_international := some false }

/-- Filter set with multi-value lists in one order. -/
def filtersA : SearchFilters :=
  { emptyFilters with
    shops := some ["ksp", "ivory", "bug"]
    categories := some ["Audio", "Electronics"]
    brands := some ["Sony", "Bose"] }

/-- The same filter set with each multi-value list permuted. -/
def filtersB : SearchFilters :=
  { emptyFilters with
    shops := some ["ivory", "bug", "ksp"]
    categories := some ["Electronics", "Audio"]
    brands := some ["Bose", "Sony"] }

/-- Witness for C5: shuffling the shops, categories and brands arrays of a
concrete local request leaves the cache key unchanged. -/
theorem buildSearchCacheKey_order_independent_witness :
    buildSearchCacheKey SearchKind.localKind
        ((SearchReq.localReq reqKeyBase).withFilters (some filtersA))
      = buildSearchCacheKey SearchKind.localKind
        ((SearchReq.localReq reqKeyBase).withFilters (some filtersB)) :=
  buildSearchCacheKey_order_independent SearchKind.localKind (SearchReq.localReq reqKeyBase)
    filtersA filtersB rfl rfl rfl (by decide) (by decide) (by decide) rfl

/-- Every listing in a page returned by the mock global search satisfies the
global listing predicate (it survived the filter step). -/
theorem mockSearchGlobal_mem_pred {products : List Product} {q uc : String}
    {f : Option SearchFilters} {page pp : Nat} {p : Product}
    (hp : p ∈ (mockSearchGlobal products q uc f page pp).results) :
    mockGlobalPred (jsToLower q) uc f p = true := by
  simp only [mockSearchGlobal] at hp
  have h1 : p ∈ List.insertionSort (fun a b => effCost a ≤ effCost b)
      (products.filter (mockGlobalPred (jsToLower q) uc f)) :=
    List.drop_subset _ _ (List.take_subset _ _ hp)
  have h2 : p ∈ products.filter (mockGlobalPred (jsToLower q) uc f) :=
    (List.perm_insertionSort _ _).mem_iff.mp h1
  exact (List.mem_filter.mp h2).2

/-- C10: every listing returned by the mock global search ships to the
requesting user's country. -/
theorem mockSearchGlobal_ships_to_user (products : List Product) (q uc : String)
    (f : Option SearchFilters) (page pp : Nat) :
    ∀ p ∈ (mockSearchGlobal products q uc f page pp).results,
      uc ∈ p.shop_info.ships_to := by
  intro p hp
  have hpred := mockSearchGlobal_mem_pred hp
  simp only [mockGlobalPred, Bool.and_eq_true, decide_eq_true_eq] at hpred
  have hcontains : p.shop_info.ships_to.contains uc = true := hpred.1.1.2
  simpa using hcontains

/-- A global in-stock listing matching the headphones query, shipping to IL. -/
def globalProd : Product :=
  { baseProduct with
    _id := "gp1"
    shop_info :=
      { name := "Amazon"
        type := ShopType.globalShop
        country := "US"
        ships_to := ["IL", "US"]
        is_marketplace := true
        global_reach := true } }

/-- Witness for C10: the concrete listing `globalProd` is returned for user
country IL and indeed ships to IL. -/
theorem mockSearchGlobal_ships_to_user_witness :
    "IL" ∈ globalProd.shop_info.ships_to :=
  mockSearchGlobal_ships_to_user [globalProd] "headphones" "IL" none 1 10 globalProd
    (by decide)

/-- A global in-stock listing in category Video matching the headphones
query. -/
def videoProd : Product :=
  { globalProd with
    _id := "gp2"
    category := some "Video"
    description := some "headphones adapter" }

/-- The filter set with a categories allow-list that excludes Video. -/
def audioOnlyFilters : SearchFilters :=
  { emptyFilters with categories := some ["Audio"] }

/-- C7 counterexample: with a non-empty categories allow-list of ["Audio"],
the mock global search still returns a listing of category "Video" — the
categories filter is not applied on the global path. -/
theorem globalSearch_ignores_categories_counterexample :
    audioOnlyFilters.categories = some ["Audio"] ∧
    (mockSearchGlobal [videoProd] "headphones" "IL" (some audioOnlyFilters) 1 10).results
      = [videoProd] ∧
    videoProd.category = some "Video" ∧
    "Video" ∉ (["Audio"] : List String) := by
  refine ⟨rfl, ?_, rfl, by decide⟩
  rfl

/-- Does a Meilisearch filter token constrain the category or the brand? -/
def isCategoryOrBrandTok : MeiliFilter → Bool
  | MeiliFilter.categoryIn _ => true
  | MeiliFilter.brandIn _ => true
  | _ => false

/-- C7 (amended): on the global path only the brands allow-list is enforced,
and only by the mock provider — every listing returned by the mock global
search with a non-empty brands list has its brand (the empty string when
absent) in that list — while the index-provider filter builder pushes
neither a category nor a brand filter. -/
theorem globalPath_filters_partial (products : List Product) (q uc : String)
    (f : SearchFilters) (page pp : Nat) (bl : List String)
    (hb : f.brands = some bl) (hne : bl ≠ []) :
    (∀ p ∈ (mockSearchGlobal products q uc (some f) page pp).results,
      p.brand.getD "" ∈ bl) ∧
    ∀ msr : Option ℚ,
      (buildGlobalFilters f msr).all (fun tok => !(isCategoryOrBrandTok tok)) = true := by
  constructor
  · intro p hp
    have hpred := mockSearchGlobal_mem_pred hp
    simp only [mockGlobalPred, Bool.and_eq_true] at hpred
    have hpass := hpred.2
    rw [passesMockFilters, hb] at hpass
    simp only [Bool.and_eq_true] at hpass
    have hbrand := hpass.1.1.2
    have hlen : bl.length > 0 := List.length_pos.mpr hne
    have hd : decide (bl.length > 0) = true := decide_eq_true hlen
    rw [hd] at hbrand
    simp only [Bool.true_and, Bool.not_eq_true', Bool.not_eq_false] at hbrand
    simpa using hbrand
  · intro msr
    simp only [buildGlobalFilters, List.all_append, Bool.and_eq_true]
    refine ⟨⟨⟨⟨⟨⟨?_, ?_⟩, ?_⟩, ?_⟩, ?_⟩, ?_⟩, ?_⟩
    · simp [isCategoryOrBrandTok]
    · cases f.min_price <;> simp [isCategoryOrBrandTok]
    · cases f.max_price <;> simp [isCategoryOrBrandTok]
    · by_cases h : f.in_stock = some true <;> simp [h, isCategoryOrBrandTok]
    · cases f.shops with
      | none => simp
      | some l =>
        by_cases h : l.length > 0 <;> simp [h, isCategoryOrBrandTok]
    · cases f.min_rating <;> simp [isCategoryOrBrandTok]
    · cases msr <;> simp [isCategoryOrBrandTok]

/-- A Bose-branded global in-stock listing matching the headphones query. -/
def boseProd : Product :=
  { globalProd with _id := "gp3", brand := some "Bose" }

/-- Witness for the amended C7: with brands allow-list ["Bose"], the returned
listing's brand is in the list, and the global filter builder emits no
category or brand token for this filter set. -/
theorem globalPath_filters_partial_witness :
    ({ emptyFilters with brands := some ["Bose"] } : SearchFilters).brands = some ["Bose"] ∧
    (["Bose"] : List String) ≠ [] ∧
    boseProd.brand.getD "" ∈ (["Bose"] : List String) ∧
    (buildGlobalFilters { emptyFilters with brands := some ["Bose"] } none).all
      (fun tok => !(isCategoryOrBrandTok tok)) = true := by
  have h := globalPath_filters_partial [boseProd] "headphones" "IL"
    { emptyFilters with brands := some ["Bose"] } 1 10 ["Bose"] rfl (by decide)
  exact ⟨rfl, by decide, h.1 boseProd (by decide), h.2 none⟩

/-- A local search request with `check_international` explicitly false. -/
def reqNoIntl : LocalSearchRequest :=
  { query := "headphones"
    filters := none
    sort_by := none
    page := none
    per_page := none
    country := Country.IL
    check_international := some false }

/-- Products whose top local hit has a 20%-cheaper in-stock global
alternative in the same group. -/
def productsDeal : List Product :=
  [baseProduct, altWith 80]

/-- C6 counterexample: in mock-data mode, a local search with
`check_international = false` still returns a smart deal — the mock provider
runs smart-deal detection unconditionally. -/
theorem searchLocal_smartDeal_counterexample :
    reqNoIntl.check_international = some false ∧
    ∃ d : SmartDeal,
      (searchLocal (DataBackend.mockData productsDeal) reqNoIntl).smartDeal = some d ∧
      d.available = true := by
  refine ⟨rfl, ?_⟩
  have hstep : (searchLocal (DataBackend.mockData productsDeal) reqNoIntl).smartDeal
      = findSmartDeal productsDeal "headphones" (some baseProduct) := rfl
  rw [hstep]
  have hAlts : smartDealAlternatives productsDeal baseProduct = [altWith 80] := rfl
  simp only [findSmartDeal, hAlts]
  have hpct : (localDealPrice baseProduct - effCost (cheapestBy (altWith 80) []))
      / localDealPrice baseProduct * 100 = 20 := by
    norm_num [localDealPrice, orElseQ, effCost, cheapestBy, altWith, intlWith, baseProduct]
  rw [hpct, if_neg (by norm_num)]
  exact ⟨_, rfl, rfl⟩

/-- C6 (amended): on the index-provider path the result carries a smart-deal
object exactly when `check_international` holds and the page is non-empty
(and that object is the stubbed unavailable deal); the mock provider instead
runs `findSmartDeal` on the top result unconditionally. -/
theorem searchLocal_smartDeal_gating (o : IndexOutcome) (r : LocalSearchRequest)
    (products : List Product) :
    ((searchLocal (DataBackend.meili o) r).smartDeal.isSome
      = (r.check_international.getD false
          && !(searchLocal (DataBackend.meili o) r).products.isEmpty)) ∧
    (searchLocal (DataBackend.mockData products) r).smartDeal
      = findSmartDeal products r.query
          ((searchLocal (DataBackend.mockData products) r).products.head?) := by
  constructor
  · cases o with
    | failure => simp [searchLocal, fallbackSearchLocal]
    | success hits tot =>
      cases hits with
      | nil => simp [searchLocal]
      | cons h t =>
        cases hc : r.check_international.getD false <;>
          simp [searchLocal, hc, checkSmartDeals]
  · rfl

/-- The concrete request of the cache-poisoning scenario. -/
def reqFallback : LocalSearchRequest :=
  { query := "headphones"
    filters := none
    sort_by := some SortBy.relevance
    page := some 1
    per_page := some 20
    country := Country.IL
    check_international := some false }

/-- C1: on a cache miss with the index provider failing, the local search
route still performs a cache write, storing the fallback (empty) response —
the handler caches unconditionally after `searchLocal`, and the fallback
path is indistinguishable from a successful query. -/
theorem localRoute_caches_fallback :
    (searchLocal (DataBackend.meili IndexOutcome.failure) reqFallback).products = [] ∧
    (localSearchRoute none (DataBackend.meili IndexOutcome.failure) reqFallback).cacheWrites
      = [(buildSearchCacheKey SearchKind.localKind (SearchReq.localReq reqFallback),
          { results := []
            pagination := buildPagination 1 20 0
            smart_deal := none
            query := "headphones"
            filters := emptyFilters })] := by
  exact ⟨rfl, rfl⟩

end PriceComp
